import Mathlib

set_option linter.unusedVariables false

/-!
Shallow embedding of `src/glumpy/app/window/window.py` (class `Window`).

Python mutation is modelled by explicit state passing on a `Window` record;
fallible attribute access returns `Except PyError`; GL calls and log warnings
are modelled as explicit traces returned alongside the new state.
-/

namespace Glumpy

/-- OpenGL buffer-bit constants re-exported by `glumpy.gl` (standard GL values). -/
def GL_COLOR_BUFFER_BIT : Nat := 0x00004000

/-- Depth buffer bit `GL_DEPTH_BUFFER_BIT`. -/
def GL_DEPTH_BUFFER_BIT : Nat := 0x00000100

/-- Stencil buffer bit `GL_STENCIL_BUFFER_BIT`. -/
def GL_STENCIL_BUFFER_BIT : Nat := 0x00000400

/-- Modelled from the spec: `glumpy.app.window.mouse` (absent from src/) supplies
a `NONE` button constant; the spec says `button` defaults to "none". -/
def mouse_NONE : Int := 0

/-- The class of Python runtime errors this file can raise: attribute access on
`None` or on an object lacking the attribute raises `AttributeError`. -/
inductive PyError
  | attributeError
deriving DecidableEq, Repr

/-- A windowing backend: the base class only uses its `name()` method. -/
structure Backend where
  name : String
deriving DecidableEq, Repr

/-- A GL configuration object as consulted by `Window.__init__`: only the
`_depth_size` and `_stencil_size` attributes are read.  `none` models an
object lacking the attribute (access raises `AttributeError`). -/
structure PyConfig where
  _depth_size : Option Int
  _stencil_size : Option Int
deriving DecidableEq, Repr

/-- `config._depth_size` as a Python attribute access: `config` may be `None`
(raises `AttributeError`) or lack the attribute (raises `AttributeError`). -/
def getattr_depth_size (config : Option PyConfig) : Except PyError Int :=
  match config with
  | none => .error .attributeError
  | some c =>
    match c._depth_size with
    | none => .error .attributeError
    | some d => .ok d

/-- `config._stencil_size` as a Python attribute access. -/
def getattr_stencil_size (config : Option PyConfig) : Except PyError Int :=
  match config with
  | none => .error .attributeError
  | some c =>
    match c._stencil_size with
    | none => .error .attributeError
    | some s => .ok s

/-- The state of a `Window` instance.  `κ` is the type of timer callbacks,
`δ` the type of delays, `α` the component type of the clear color.
The first two fields are the state set by `Viewport.__init__`, modelled from
the spec: `Viewport` (not in src/) supplies size/aspect management only and
in particular does not assign `_config`. -/
structure Window (κ δ α : Type) where
  viewport_size : Int × Int
  viewport_aspect : Option ℚ
  _mouse_x : Int
  _mouse_y : Int
  _button : Int
  _x : Int
  _y : Int
  _width : Int
  _height : Int
  _title : String
  _visible : Bool
  _fullscreen : Bool
  _decoration : Bool
  _clock : Option Unit
  _timer_stack : List (κ × δ)
  _timer_date : List Int
  _backend : Option Backend
  color : α × α × α × α
  _clearflags : Nat
  _config : Option PyConfig

variable {κ δ α : Type}

/-- `Window.__init__` (window.py lines 104-159).  `argv0` is the ambient
`sys.argv[0]`; `title or sys.argv[0]` uses Python truthiness (None and the
empty string are falsy).  `_config` is never assigned by `__init__` (the
source has no `self._config = config` line), which we record as `none`.
Construction fails when `config` is `None` or lacks the depth/stencil
attributes, since `config._depth_size` / `config._stencil_size` are read
unconditionally while computing `_clearflags`. -/
def Window.init (κ δ α : Type) (argv0 : String) (width height : Int)
    (title : Option String) (visible : Bool) (aspect : Option ℚ)
    (decoration : Bool) (fullscreen : Bool) (config : Option PyConfig)
    (context : Option Unit) (color : α × α × α × α) :
    Except PyError (Window κ δ α) :=
  match getattr_depth_size config with
  | .error e => .error e
  | .ok d =>
  match getattr_stencil_size config with
  | .error e => .error e
  | .ok s =>
  let flags0 := GL_COLOR_BUFFER_BIT
  let flags1 := if d ≠ 0 then flags0 ||| GL_DEPTH_BUFFER_BIT else flags0
  let flags2 := if s ≠ 0 then flags1 ||| GL_STENCIL_BUFFER_BIT else flags1
  .ok
    { viewport_size := (width, height)
      viewport_aspect := aspect
      _mouse_x := 0
      _mouse_y := 0
      _button := mouse_NONE
      _x := 0
      _y := 0
      _width := width
      _height := height
      _title := match title with
                | none => argv0
                | some t => if t = "" then argv0 else t
      _visible := visible
      _fullscreen := fullscreen
      _decoration := decoration
      _clock := none
      _timer_stack := []
      _timer_date := []
      _backend := none
      color := color
      _clearflags := flags2
      _config := none }

/-- Property `width` (lines 162-164). -/
def Window.width (w : Window κ δ α) : Int := w._width

/-- Property `height` (lines 166-168). -/
def Window.height (w : Window κ δ α) : Int := w._height

/-- Property `config` (lines 174-176): returns `self._config`, an attribute
that `__init__` never assigns, so the access raises `AttributeError`. -/
def Window.config (w : Window κ δ α) : Except PyError PyConfig :=
  match w._config with
  | none => .error .attributeError
  | some c => .ok c

/-- A GL command issued by `clear()`. -/
inductive GLCall (α : Type)
  | glClearColor (r g b a : α)
  | glClear (mask : Nat)
deriving DecidableEq, Repr

/-- `Window.clear` (lines 178-182): issues `glClearColor(*self.color)` then
`glClear(self._clearflags)`; the window state is untouched. -/
def Window.clear (w : Window κ δ α) : List (GLCall α) × Window κ δ α :=
  ([GLCall.glClearColor w.color.1 w.color.2.1 w.color.2.2.1 w.color.2.2.2,
    GLCall.glClear w._clearflags], w)

/-- `self._backend.name()`: raises `AttributeError` when `_backend` is `None`. -/
def backend_name (w : Window κ δ α) : Except PyError String :=
  match w._backend with
  | none => .error .attributeError
  | some b => .ok b.name

/-- `Window.show` (lines 184-186): logs one warning; state unchanged. -/
def Window.show (w : Window κ δ α) :
    Except PyError (Window κ δ α × List String) :=
  match backend_name w with
  | .error e => .error e
  | .ok n => .ok (w, [n ++ " backend cannot show window"])

/-- `Window.hide` (lines 188-190). -/
def Window.hide (w : Window κ δ α) :
    Except PyError (Window κ δ α × List String) :=
  match backend_name w with
  | .error e => .error e
  | .ok n => .ok (w, [n ++ " backend cannot hide window"])

/-- `Window.close` (lines 192-194). -/
def Window.close (w : Window κ δ α) :
    Except PyError (Window κ δ α × List String) :=
  match backend_name w with
  | .error e => .error e
  | .ok n => .ok (w, [n ++ " backend cannot close window"])

/-- `Window.set_title` (lines 196-198): the argument is ignored. -/
def Window.set_title (w : Window κ δ α) (title : String) :
    Except PyError (Window κ δ α × List String) :=
  match backend_name w with
  | .error e => .error e
  | .ok n => .ok (w, [n ++ " backend cannot set window title"])

/-- `Window.get_title` (lines 200-202). -/
def Window.get_title (w : Window κ δ α) :
    Except PyError (Window κ δ α × List String) :=
  match backend_name w with
  | .error e => .error e
  | .ok n => .ok (w, [n ++ " backend cannot get window title"])

/-- `Window.set_size` (lines 204-206): the arguments are ignored. -/
def Window.set_size (w : Window κ δ α) (width height : Int) :
    Except PyError (Window κ δ α × List String) :=
  match backend_name w with
  | .error e => .error e
  | .ok n => .ok (w, [n ++ " backend cannot set window size"])

/-- `Window.get_size` (lines 208-210). -/
def Window.get_size (w : Window κ δ α) :
    Except PyError (Window κ δ α × List String) :=
  match backend_name w with
  | .error e => .error e
  | .ok n => .ok (w, [n ++ " backend cannot get window size"])

/-- `Window.set_position` (lines 212-214): the arguments are ignored. -/
def Window.set_position (w : Window κ δ α) (x y : Int) :
    Except PyError (Window κ δ α × List String) :=
  match backend_name w with
  | .error e => .error e
  | .ok n => .ok (w, [n ++ " backend cannot set window position"])

/-- `Window.get_position` (lines 216-218): note the message omits "window". -/
def Window.get_position (w : Window κ δ α) :
    Except PyError (Window κ δ α × List String) :=
  match backend_name w with
  | .error e => .error e
  | .ok n => .ok (w, [n ++ " backend cannot get position"])

/-- `Window.set_fullscreen` (lines 220-222): the argument is ignored. -/
def Window.set_fullscreen (w : Window κ δ α) (fullscreen : Bool) :
    Except PyError (Window κ δ α × List String) :=
  match backend_name w with
  | .error e => .error e
  | .ok n => .ok (w, [n ++ " backend cannot set fullscreen mode"])

/-- `Window.get_fullscreen` (lines 224-226). -/
def Window.get_fullscreen (w : Window κ δ α) :
    Except PyError (Window κ δ α × List String) :=
  match backend_name w with
  | .error e => .error e
  | .ok n => .ok (w, [n ++ " backend cannot get fullscreen mode"])

/-- `Window.swap` (lines 228-230). -/
def Window.swap (w : Window κ δ α) :
    Except PyError (Window κ δ α × List String) :=
  match backend_name w with
  | .error e => .error e
  | .ok n => .ok (w, [n ++ " backend cannot swap buffers"])

/-- `Window.activate` (lines 232-234). -/
def Window.activate (w : Window κ δ α) :
    Except PyError (Window κ δ α × List String) :=
  match backend_name w with
  | .error e => .error e
  | .ok n => .ok (w, [n ++ " backend cannot make window active"])

/-- `Window.timer` (lines 236-257): returns `decorator` and touches no state
itself.  The decorator, applied to a callback `func` and the window state at
application time, appends `(func, delay)` to `_timer_stack`, appends `0` to
`_timer_date`, and returns `func`. -/
def Window.timer (w : Window κ δ α) (delay : δ) :
    Window κ δ α × (κ → Window κ δ α → Window κ δ α × κ) :=
  (w, fun func self =>
    ({ self with
        _timer_stack := self._timer_stack ++ [(func, delay)]
        _timer_date := self._timer_date ++ [0] }, func))

/-- One full registration: `@window.timer(delay)` applied to `func`. -/
def Window.register (w : Window κ δ α) (delay : δ) (func : κ) :
    Window κ δ α × κ :=
  ((w.timer delay).2) func ((w.timer delay).1)

/-- A sequence of registrations `timer(d1)(f1); timer(d2)(f2); …` in order. -/
def registerAll : List (κ × δ) → Window κ δ α → Window κ δ α
  | [], w => w
  | (f, d) :: rest, w => registerAll rest ((Window.register w d f).1)

/-- Applying one decorator to several callbacks in order. -/
def applyAll (dec : κ → Window κ δ α → Window κ δ α × κ) :
    List κ → Window κ δ α → Window κ δ α
  | [], w => w
  | f :: rest, w => applyAll dec rest (dec f w).1

/-- A concrete window with a backend attached, for instantiating theorems. -/
def sampleWindow : Window Nat ℚ Nat :=
  { viewport_size := (256, 256)
    viewport_aspect := none
    _mouse_x := 0
    _mouse_y := 0
    _button := mouse_NONE
    _x := 0
    _y := 0
    _width := 256
    _height := 256
    _title := "prog"
    _visible := true
    _fullscreen := false
    _decoration := true
    _clock := none
    _timer_stack := []
    _timer_date := []
    _backend := some ⟨"glfw"⟩
    color := (0, 0, 0, 1)
    _clearflags := GL_COLOR_BUFFER_BIT
    _config := none }

/-- The window produced by a successful construction with `argv0 = "prog"`,
`depth_size = 24`, `stencil_size = 8` and defaults elsewhere. -/
def freshWindow : Window Nat ℚ Nat :=
  { viewport_size := (256, 256)
    viewport_aspect := none
    _mouse_x := 0
    _mouse_y := 0
    _button := mouse_NONE
    _x := 0
    _y := 0
    _width := 256
    _height := 256
    _title := "prog"
    _visible := true
    _fullscreen := false
    _decoration := true
    _clock := none
    _timer_stack := []
    _timer_date := []
    _backend := none
    color := (0, 0, 0, 1)
    _clearflags := GL_COLOR_BUFFER_BIT ||| GL_DEPTH_BUFFER_BIT ||| GL_STENCIL_BUFFER_BIT
    _config := none }

/-! ## Helper lemmas -/

/-- Effect of a registration sequence on the two registries. -/
theorem registerAll_effect (regs : List (κ × δ)) (w : Window κ δ α) :
    (registerAll regs w)._timer_stack = w._timer_stack ++ regs ∧
    (registerAll regs w)._timer_date.length
      = w._timer_date.length + regs.length := by
  induction regs generalizing w with
  | nil => simp [registerAll]
  | cons p rest ih =>
    obtain ⟨f, d⟩ := p
    have h := ih ((Window.register w d f).1)
    simp only [registerAll] at h ⊢
    simp [Window.register, Window.timer] at h
    simp [Window.register, Window.timer, h.1, h.2]
    omega

/-- Effect of applying one timer decorator to a list of callbacks. -/
theorem applyAll_timer_effect (w0 : Window κ δ α) (d : δ) (fs : List κ) :
    ∀ w : Window κ δ α,
      (applyAll ((w0.timer d).2) fs w)._timer_stack
          = w._timer_stack ++ fs.map (fun f => (f, d)) ∧
      (applyAll ((w0.timer d).2) fs w)._timer_date
          = w._timer_date ++ List.replicate fs.length 0 := by
  induction fs with
  | nil => intro w; simp [applyAll]
  | cons f rest ih =>
    intro w
    have h := ih (((w0.timer d).2) f w).1
    simp only [applyAll] at h ⊢
    simp [Window.timer] at h
    simp [Window.timer, h.1, h.2, List.replicate_succ]

/-! ## Claims -/

/-- C1: for every non-negative delay and callback `f`, registering `f` via
`timer(delay)` appends exactly one entry `(f, delay)` to `timer_stack`,
appends exactly one entry `0` to `timer_date`, and returns `f` unchanged. -/
theorem timer_registration_appends_one (w : Window κ ℚ α) (f : κ) (delay : ℚ)
    (h : 0 ≤ delay) :
    (Window.register w delay f).1._timer_stack = w._timer_stack ++ [(f, delay)] ∧
    (Window.register w delay f).1._timer_date = w._timer_date ++ [0] ∧
    (Window.register w delay f).2 = f :=
  ⟨rfl, rfl, rfl⟩

/-- Witness for C1 at `delay = 1`, callback `7`, on `sampleWindow`. -/
theorem timer_registration_appends_one_witness :
    (0 : ℚ) ≤ 1 ∧
    ((Window.register sampleWindow 1 7).1._timer_stack
        = sampleWindow._timer_stack ++ [(7, 1)] ∧
      (Window.register sampleWindow 1 7).1._timer_date
        = sampleWindow._timer_date ++ [0] ∧
      (Window.register sampleWindow 1 7).2 = 7) :=
  ⟨by decide, timer_registration_appends_one sampleWindow 7 1 (by decide)⟩

/-- C2: starting from a window with empty registries (as produced by
construction), any sequence of registrations leaves `timer_stack` equal to
the registration sequence in call order, and the two registries with equal
lengths. -/
theorem registration_order_invariant (w : Window κ ℚ α) (regs : List (κ × ℚ))
    (hs : w._timer_stack = []) (hd : w._timer_date = []) :
    (registerAll regs w)._timer_stack = regs ∧
    (registerAll regs w)._timer_date.length
      = (registerAll regs w)._timer_stack.length := by
  have h := registerAll_effect regs w
  refine ⟨by simp [h.1, hs], ?_⟩
  rw [h.1, h.2, hs, hd]
  simp

/-- Witness for C2: three registrations on `sampleWindow`. -/
theorem registration_order_invariant_witness :
    sampleWindow._timer_stack = [] ∧ sampleWindow._timer_date = [] ∧
    ((registerAll [(3, 1), (4, 2), (5, 0)] sampleWindow)._timer_stack
        = [(3, 1), (4, 2), (5, 0)] ∧
      (registerAll [(3, 1), (4, 2), (5, 0)] sampleWindow)._timer_date.length
        = (registerAll [(3, 1), (4, 2), (5, 0)] sampleWindow)._timer_stack.length) :=
  ⟨rfl, rfl,
    registration_order_invariant sampleWindow [(3, 1), (4, 2), (5, 0)] rfl rfl⟩

/-- C10: `timer(delay)` by itself changes nothing; each application of the
returned decorator to a callback registers one entry, all sharing `delay`. -/
theorem timer_only_registers_on_application (w : Window κ δ α) (d : δ)
    (fs : List κ) :
    (w.timer d).1 = w ∧
    (applyAll ((w.timer d).2) fs w)._timer_stack
        = w._timer_stack ++ fs.map (fun f => (f, d)) ∧
    (applyAll ((w.timer d).2) fs w)._timer_date
        = w._timer_date ++ List.replicate fs.length 0 :=
  ⟨rfl, (applyAll_timer_effect w d fs w).1, (applyAll_timer_effect w d fs w).2⟩

/-- C3: at construction `clear_flags` is the color bit, with the depth bit
ORed in iff the configuration's depth size is nonzero and the stencil bit
ORed in iff its stencil size is nonzero; both zero give the color bit alone. -/
theorem clearflags_from_config (argv0 : String) (width height : Int)
    (title : Option String) (visible : Bool) (aspect : Option ℚ)
    (decoration fullscreen : Bool) (d s : Int) (context : Option Unit)
    (color : α × α × α × α) (w : Window κ δ α)
    (h : Window.init κ δ α argv0 width height title visible aspect decoration
        fullscreen (some ⟨some d, some s⟩) context color = .ok w) :
    w._clearflags
        = (GL_COLOR_BUFFER_BIT ||| (if d ≠ 0 then GL_DEPTH_BUFFER_BIT else 0))
            ||| (if s ≠ 0 then GL_STENCIL_BUFFER_BIT else 0) ∧
    (d = 0 → s = 0 → w._clearflags = GL_COLOR_BUFFER_BIT) := by
  simp only [Window.init, getattr_depth_size, getattr_stencil_size,
    Except.ok.injEq] at h
  subst h
  constructor
  · by_cases hd : d = 0 <;> by_cases hs : s = 0 <;> simp [hd, hs]
  · intro hd hs
    simp [hd, hs]

/-- Witness for C3 at `depth_size = 24`, `stencil_size = 8`. -/
theorem clearflags_from_config_witness :
    Window.init Nat ℚ Nat "prog" 256 256 none true none true false
        (some ⟨some 24, some 8⟩) none (0, 0, 0, 1) = .ok freshWindow ∧
    (freshWindow._clearflags
        = (GL_COLOR_BUFFER_BIT
            ||| (if (24 : Int) ≠ 0 then GL_DEPTH_BUFFER_BIT else 0))
            ||| (if (8 : Int) ≠ 0 then GL_STENCIL_BUFFER_BIT else 0) ∧
      ((24 : Int) = 0 → (8 : Int) = 0
        → freshWindow._clearflags = GL_COLOR_BUFFER_BIT)) :=
  ⟨rfl, clearflags_from_config "prog" 256 256 none true none true false 24 8
    none (0, 0, 0, 1) freshWindow rfl⟩

/-- C4 (code bug): the `config` property reads `self._config`, but
`__init__` never assigns that attribute, so for every successfully
constructed window the accessor raises `AttributeError` instead of
returning the configuration supplied at construction. -/
theorem config_accessor_raises_attribute_error (argv0 : String)
    (width height : Int) (title : Option String) (visible : Bool)
    (aspect : Option ℚ) (decoration fullscreen : Bool) (d s : Int)
    (context : Option Unit) (color : α × α × α × α) :
    Except.map Window.config
        (Window.init κ δ α argv0 width height title visible aspect decoration
          fullscreen (some ⟨some d, some s⟩) context color)
      = .ok (.error PyError.attributeError) := rfl

/-- C5: with a backend attached, each of the thirteen stub operations
returns the unchanged window state and exactly one warning naming the
backend and the attempted operation. -/
theorem stubs_warn_and_preserve_state (w : Window κ δ α) (b : Backend)
    (t : String) (sw sh px py : Int) (fsm : Bool)
    (h : w._backend = some b) :
    w.show = .ok (w, [b.name ++ " backend cannot show window"]) ∧
    w.hide = .ok (w, [b.name ++ " backend cannot hide window"]) ∧
    w.close = .ok (w, [b.name ++ " backend cannot close window"]) ∧
    w.set_title t = .ok (w, [b.name ++ " backend cannot set window title"]) ∧
    w.get_title = .ok (w, [b.name ++ " backend cannot get window title"]) ∧
    w.set_size sw sh = .ok (w, [b.name ++ " backend cannot set window size"]) ∧
    w.get_size = .ok (w, [b.name ++ " backend cannot get window size"]) ∧
    w.set_position px py
      = .ok (w, [b.name ++ " backend cannot set window position"]) ∧
    w.get_position = .ok (w, [b.name ++ " backend cannot get position"]) ∧
    w.set_fullscreen fsm
      = .ok (w, [b.name ++ " backend cannot set fullscreen mode"]) ∧
    w.get_fullscreen
      = .ok (w, [b.name ++ " backend cannot get fullscreen mode"]) ∧
    w.swap = .ok (w, [b.name ++ " backend cannot swap buffers"]) ∧
    w.activate = .ok (w, [b.name ++ " backend cannot make window active"]) := by
  simp [Window.show, Window.hide, Window.close, Window.set_title,
    Window.get_title, Window.set_size, Window.get_size, Window.set_position,
    Window.get_position, Window.set_fullscreen, Window.get_fullscreen,
    Window.swap, Window.activate, backend_name, h]

/-- Witness for C5 on `sampleWindow`, whose backend is named `"glfw"`. -/
theorem stubs_warn_and_preserve_state_witness :
    sampleWindow._backend = some ⟨"glfw"⟩ ∧
    (sampleWindow.show
        = .ok (sampleWindow, ["glfw" ++ " backend cannot show window"]) ∧
      sampleWindow.hide
        = .ok (sampleWindow, ["glfw" ++ " backend cannot hide window"]) ∧
      sampleWindow.close
        = .ok (sampleWindow, ["glfw" ++ " backend cannot close window"]) ∧
      sampleWindow.set_title "t"
        = .ok (sampleWindow, ["glfw" ++ " backend cannot set window title"]) ∧
      sampleWindow.get_title
        = .ok (sampleWindow, ["glfw" ++ " backend cannot get window title"]) ∧
      sampleWindow.set_size 1 2
        = .ok (sampleWindow, ["glfw" ++ " backend cannot set window size"]) ∧
      sampleWindow.get_size
        = .ok (sampleWindow, ["glfw" ++ " backend cannot get window size"]) ∧
      sampleWindow.set_position 3 4
        = .ok (sampleWindow, ["glfw" ++ " backend cannot set window position"]) ∧
      sampleWindow.get_position
        = .ok (sampleWindow, ["glfw" ++ " backend cannot get position"]) ∧
      sampleWindow.set_fullscreen true
        = .ok (sampleWindow, ["glfw" ++ " backend cannot set fullscreen mode"]) ∧
      sampleWindow.get_fullscreen
        = .ok (sampleWindow, ["glfw" ++ " backend cannot get fullscreen mode"]) ∧
      sampleWindow.swap
        = .ok (sampleWindow, ["glfw" ++ " backend cannot swap buffers"]) ∧
      sampleWindow.activate
        = .ok (sampleWindow, ["glfw" ++ " backend cannot make window active"])) :=
  ⟨rfl, stubs_warn_and_preserve_state sampleWindow ⟨"glfw"⟩ "t" 1 2 3 4 true rfl⟩

/-- C6: a freshly constructed window has no backend, and every stub
operation invoked on it raises an `AttributeError` (the `None` backend is
dereferenced for its name). -/
theorem fresh_window_stubs_raise (argv0 : String) (width height : Int)
    (title : Option String) (visible : Bool) (aspect : Option ℚ)
    (decoration fullscreen : Bool) (config : Option PyConfig)
    (context : Option Unit) (color : α × α × α × α) (w : Window κ δ α)
    (t : String) (sw sh px py : Int) (fsm : Bool)
    (h : Window.init κ δ α argv0 width height title visible aspect decoration
        fullscreen config context color = .ok w) :
    w._backend = none ∧
    w.show = .error .attributeError ∧
    w.hide = .error .attributeError ∧
    w.close = .error .attributeError ∧
    w.set_title t = .error .attributeError ∧
    w.get_title = .error .attributeError ∧
    w.set_size sw sh = .error .attributeError ∧
    w.get_size = .error .attributeError ∧
    w.set_position px py = .error .attributeError ∧
    w.get_position = .error .attributeError ∧
    w.set_fullscreen fsm = .error .attributeError ∧
    w.get_fullscreen = .error .attributeError ∧
    w.swap = .error .attributeError ∧
    w.activate = .error .attributeError := by
  have hb : w._backend = none := by
    unfold Window.init at h
    split at h
    · simp at h
    · split at h
      · simp at h
      · simp only [Except.ok.injEq] at h
        subst h
        rfl
  simp [Window.show, Window.hide, Window.close, Window.set_title,
    Window.get_title, Window.set_size, Window.get_size, Window.set_position,
    Window.get_position, Window.set_fullscreen, Window.get_fullscreen,
    Window.swap, Window.activate, backend_name, hb]

/-- Witness for C6 on a concrete successful construction. -/
theorem fresh_window_stubs_raise_witness :
    Window.init Nat ℚ Nat "prog" 256 256 none true none true false
        (some ⟨some 24, some 8⟩) none (0, 0, 0, 1) = .ok freshWindow ∧
    (freshWindow._backend = none ∧
      freshWindow.show = .error .attributeError ∧
      freshWindow.hide = .error .attributeError ∧
      freshWindow.close = .error .attributeError ∧
      freshWindow.set_title "t" = .error .attributeError ∧
      freshWindow.get_title = .error .attributeError ∧
      freshWindow.set_size 1 2 = .error .attributeError ∧
      freshWindow.get_size = .error .attributeError ∧
      freshWindow.set_position 3 4 = .error .attributeError ∧
      freshWindow.get_position = .error .attributeError ∧
      freshWindow.set_fullscreen true = .error .attributeError ∧
      freshWindow.get_fullscreen = .error .attributeError ∧
      freshWindow.swap = .error .attributeError ∧
      freshWindow.activate = .error .attributeError) :=
  ⟨rfl, fresh_window_stubs_raise "prog" 256 256 none true none true false
    (some ⟨some 24, some 8⟩) none (0, 0, 0, 1) freshWindow "t" 1 2 3 4 true rfl⟩

/-- C7 fails as stated: `self._title = title or sys.argv[0]` inherits
emptiness from `sys.argv[0]`.  With `title=None` and an empty `argv[0]`
(as happens for an embedded interpreter) the stored title is empty. -/
theorem default_title_empty_counterexample :
    ∃ w : Window Nat ℚ Nat,
      Window.init Nat ℚ Nat "" 256 256 none true none true false
          (some ⟨some 0, some 0⟩) none (0, 0, 0, 1) = .ok w ∧
      w._title = "" :=
  ⟨_, rfl, rfl⟩

/-- C7 amended: with `title=None` the stored title equals the program name
`sys.argv[0]`, and it is non-empty whenever the program name is non-empty. -/
theorem default_title_is_program_name (argv0 : String) (width height : Int)
    (visible : Bool) (aspect : Option ℚ) (decoration fullscreen : Bool)
    (config : Option PyConfig) (context : Option Unit)
    (color : α × α × α × α) (w : Window κ δ α)
    (h : Window.init κ δ α argv0 width height none visible aspect decoration
        fullscreen config context color = .ok w) :
    w._title = argv0 ∧ (argv0 ≠ "" → w._title ≠ "") := by
  have ht : w._title = argv0 := by
    unfold Window.init at h
    split at h
    · simp at h
    · split at h
      · simp at h
      · simp only [Except.ok.injEq] at h
        subst h
        rfl
  refine ⟨ht, fun hne => ?_⟩
  rw [ht]
  exact hne

/-- Witness for the amended C7 at `argv0 = "prog"`. -/
theorem default_title_is_program_name_witness :
    Window.init Nat ℚ Nat "prog" 256 256 none true none true false
        (some ⟨some 24, some 8⟩) none (0, 0, 0, 1) = .ok freshWindow ∧
    (freshWindow._title = "prog" ∧ ("prog" ≠ "" → freshWindow._title ≠ "")) :=
  ⟨rfl, default_title_is_program_name "prog" 256 256 true none true false
    (some ⟨some 24, some 8⟩) none (0, 0, 0, 1) freshWindow rfl⟩

/-- C8: `clear()` issues exactly one clear-color call carrying the stored
4-component color and exactly one clear call carrying exactly
`_clearflags`, in that order, and leaves the window state unchanged. -/
theorem clear_issues_exact_gl_calls (w : Window κ δ α) :
    (w.clear).1
        = [GLCall.glClearColor w.color.1 w.color.2.1 w.color.2.2.1
             w.color.2.2.2,
           GLCall.glClear w._clearflags] ∧
    ((w.clear).1.countP fun c => match c with
        | GLCall.glClearColor _ _ _ _ => true
        | GLCall.glClear _ => false) = 1 ∧
    ((w.clear).1.countP fun c => match c with
        | GLCall.glClearColor _ _ _ _ => false
        | GLCall.glClear _ => true) = 1 ∧
    (w.clear).2 = w :=
  ⟨rfl, rfl, rfl, rfl⟩

/-- C9: construction with `config=None`, or with a configuration object
lacking `_depth_size` or `_stencil_size`, fails with an `AttributeError`. -/
theorem misconfiguration_construction_fails (argv0 : String)
    (width height : Int) (title : Option String) (visible : Bool)
    (aspect : Option ℚ) (decoration fullscreen : Bool)
    (context : Option Unit) (color : α × α × α × α) (d : Int)
    (os : Option Int) :
    Window.init κ δ α argv0 width height title visible aspect decoration
        fullscreen none context color = .error .attributeError ∧
    Window.init κ δ α argv0 width height title visible aspect decoration
        fullscreen (some ⟨none, os⟩) context color
      = .error .attributeError ∧
    Window.init κ δ α argv0 width height title visible aspect decoration
        fullscreen (some ⟨some d, none⟩) context color
      = .error .attributeError :=
  ⟨rfl, rfl, rfl⟩

end Glumpy
